import Mathlib

/-!
Shallow embedding of the order/checkout, stock-reconciliation, voucher and
account-moderation flow of the DaingGrader FastAPI backend
(src/backend/server.py, src/backend/auth_web.py), together with theorems
checking the natural-language specification against it.

Conventions used throughout:
* MongoDB collections are modelled as Lean lists of documents; `find_one`
  is first-match lookup and `update_one` rewrites the first matching
  document.
* Python floats holding currency amounts are modelled as `Rat`; Python
  ints as `Int`.
* `datetime` values are modelled as integer timestamps (seconds); one day
  (`timedelta(days=1)`) is 86400.
* Handlers that `raise HTTPException` are modelled as `Except HttpError`.
* Python truthiness of optional numeric fields (`if voucher.get("max_uses")`)
  is modelled exactly: `none` and `some 0` are falsy.
-/

namespace DaingGrader

/-- Python `str.lower()` (ASCII case folding, as applied to role/status
strings in the handlers). -/
def pyLower (s : String) : String :=
  ⟨s.data.map Char.toLower⟩

/-- Python `str.upper()` as applied to voucher codes and order numbers. -/
def pyUpper (s : String) : String :=
  ⟨s.data.map Char.toUpper⟩

/-- Python `str.strip()`: drop leading and trailing whitespace. -/
def pyStrip (s : String) : String :=
  ⟨((s.data.dropWhile Char.isWhitespace).reverse.dropWhile
      Char.isWhitespace).reverse⟩

/-- HTTP error raised by a handler: status code plus detail message. -/
structure HttpError where
  code : Nat
  detail : String
deriving Repr, DecidableEq

/-! ## Voucher validator (server.py, validate_voucher, lines 7025-7080) -/

/-- Voucher document as stored in the `vouchers` collection. -/
structure Voucher where
  id : String
  seller_id : String
  code : String
  discount_type : String
  value : Rat
  expiration_date : Option Int
  max_uses : Option Int
  current_uses : Int
  per_user_limit : Option Int
  min_order_amount : Option Rat
  active : Bool
  used_by : List (String × Int)
deriving Repr, DecidableEq

/-- Lookup `find_one({"code": code.upper(), "active": True})`: first stored
voucher whose code equals the uppercased input and which is active. -/
def findVoucher (store : List Voucher) (code : String) : Option Voucher :=
  store.find? (fun v => v.code == pyUpper code && v.active)

/-- The requesting user's recorded usage count: first entry of `used_by`
with this user's id, defaulting to 0 (`next((u["used_count"] ...), 0)`). -/
def userUsage (v : Voucher) (uid : String) : Int :=
  match v.used_by.find? (fun u => u.1 == uid) with
  | some u => u.2
  | none => 0

/-- Embeds `voucher.get("expiration_date") and voucher["expiration_date"] <= datetime.utcnow()`.
A stored datetime is always truthy, so only `none` is falsy. -/
def expiredCheck (v : Voucher) (now : Int) : Bool :=
  match v.expiration_date with
  | some e => decide (e ≤ now)
  | none => false

/-- Embeds `voucher.get("max_uses") and voucher.get("current_uses", 0) >= voucher["max_uses"]`;
an integer field is truthy exactly when it is present and nonzero. -/
def maxUsesCheck (v : Voucher) : Bool :=
  match v.max_uses with
  | some m => decide (m ≠ 0) && decide (m ≤ v.current_uses)
  | none => false

/-- Embeds the `per_user_limit` guard of `validate_voucher`. -/
def perUserCheck (v : Voucher) (uid : String) : Bool :=
  match v.per_user_limit with
  | some l => decide (l ≠ 0) && decide (l ≤ userUsage v uid)
  | none => false

/-- Embeds `voucher.get("min_order_amount") and order_total < voucher["min_order_amount"]`. -/
def minOrderCheck (v : Voucher) (total : Rat) : Bool :=
  match v.min_order_amount with
  | some m => decide (m ≠ 0) && decide (total < m)
  | none => false

/-- Successful validation payload (discount info returned to the caller). -/
structure VoucherResult where
  discount_value : Rat
  discount_type : String
  voucher_id : String
deriving Repr, DecidableEq

/-- Embedding of `validate_voucher` (server.py lines 7025-7080): look the
voucher up by uppercased code among active vouchers, run the four guards in
source order, then compute the discount. -/
def validate_voucher (store : List Voucher) (code : String) (order_total : Rat)
    (user_id : String) (now : Int) : Except HttpError VoucherResult :=
  match findVoucher store code with
  | none => .error ⟨400, "Invalid or inactive voucher code"⟩
  | some voucher =>
    if expiredCheck voucher now then
      .error ⟨400, "This voucher code has expired"⟩
    else if maxUsesCheck voucher then
      .error ⟨400, "This voucher code has reached its usage limit"⟩
    else if perUserCheck voucher user_id then
      .error ⟨400, "You have reached the usage limit for this code"⟩
    else if minOrderCheck voucher order_total then
      .error ⟨400, "Minimum order amount required"⟩
    else
      .ok { discount_value :=
              if voucher.discount_type == "percentage" then
                order_total * (voucher.value / 100)
              else voucher.value,
            discount_type := voucher.discount_type,
            voucher_id := voucher.id }

/-- Endpoint view of `validate_voucher` threading the voucher store through:
the handler only ever calls `find_one`, so the store is returned as-is. -/
def validate_voucher_endpoint (store : List Voucher) (code : String)
    (order_total : Rat) (user_id : String) (now : Int) :
    Except HttpError VoucherResult × List Voucher :=
  (validate_voucher store code order_total user_id now, store)

/-- Modelled from the spec: rejection condition of section 4.3, reading
"max_uses is set" as field presence ("reject if expired, max_uses reached,
per-user limit reached, or total below min_order_amount"). -/
def specRejects (v : Voucher) (total : Rat) (uid : String) (now : Int) : Bool :=
  (match v.expiration_date with
   | some e => decide (e ≤ now)
   | none => false) ||
  (match v.max_uses with
   | some m => decide (m ≤ v.current_uses)
   | none => false) ||
  (match v.per_user_limit with
   | some l => decide (l ≤ userUsage v uid)
   | none => false) ||
  (match v.min_order_amount with
   | some m => decide (total < m)
   | none => false)

/-- Data-model invariant enforced by `create_voucher` and `update_voucher`
(server.py lines 6870-6877 and 6960-6973): optional constraint fields are
strictly positive whenever present. -/
def VoucherPositive (v : Voucher) : Prop :=
  (∀ m, v.max_uses = some m → 0 < m) ∧
  (∀ l, v.per_user_limit = some l → 0 < l) ∧
  (∀ m, v.min_order_amount = some m → 0 < m)

instance (v : Voucher) : Decidable (VoucherPositive v) := by
  unfold VoucherPositive
  infer_instance

/-! ## Product store, cart, orders (server.py data model) -/

/-- Product document; `id` holds `str(_id)`, `images` the image URLs in
stored order. -/
structure Product where
  id : String
  seller_id : String
  seller_name : String
  name : String
  price : Rat
  stock_qty : Int
  sold_count : Int
  images : List String
  main_image_index : Nat
deriving Repr, DecidableEq

/-- The `products` collection. -/
abbrev ProductStore := List Product

/-- Lookup `find_one({"_id": ...})` by stringified id: first match. -/
def findProduct (ps : ProductStore) (pid : String) : Option Product :=
  ps.find? (fun p => p.id == pid)

/-- Embedding of Mongo `update_one`: rewrite the first document whose id
matches, leave the rest untouched. -/
def updateProduct (ps : ProductStore) (pid : String) (f : Product → Product) :
    ProductStore :=
  match ps with
  | [] => []
  | p :: rest =>
    if p.id == pid then f p :: rest else p :: updateProduct rest pid f

/-- One line of a cart document: `{product_id, qty}` (added_at is never
read by the flows specified here). -/
structure CartItem where
  product_id : String
  qty : Int
deriving Repr, DecidableEq

/-- Order line snapshot as built by `checkout_order` (lines 5103-5111). -/
structure OrderItem where
  product_id : String
  seller_id : String
  seller_name : String
  name : String
  price : Rat
  qty : Int
  image_url : String
deriving Repr, DecidableEq

/-- Per-seller accumulator of the checkout grouping loop (lines 5094-5113). -/
structure SellerGroup where
  seller_id : String
  seller_name : String
  items : List OrderItem
  total : Rat
  total_items : Int
deriving Repr, DecidableEq

/-- Order document created by checkout; `stock_deducted_sellers` is read
with default `[]`, so it is an explicit (initially empty) field here. -/
structure Order where
  user_id : String
  seller_id : String
  seller_name : String
  order_number : String
  status : String
  total : Rat
  total_items : Int
  payment_method : String
  payment_status : String
  payment_intent_id : Option String
  paid_at : Option String
  address : String
  items : List OrderItem
  stock_deducted_sellers : List String
  created_at : String
  updated_at : String
deriving Repr, DecidableEq

/-! ## Checkout / order engine (server.py, checkout_order, lines 5045-5276) -/

/-- Image snapshot of lines 5087-5092: the image at `main_image_index` if it
exists, otherwise the empty string. -/
def imageUrlOf (p : Product) : String :=
  p.images.getD p.main_image_index ""

/-- Order line built from one cart item and its resolved product
(lines 5103-5111); `seller_name` is stripped, price read from the product. -/
def toOrderItem (it : CartItem) (p : Product) : OrderItem :=
  { product_id := it.product_id,
    seller_id := p.seller_id,
    seller_name := pyStrip p.seller_name,
    name := p.name,
    price := p.price,
    qty := it.qty,
    image_url := imageUrlOf p }

/-- Resolution step of the grouping loop (lines 5075-5081): skip lines whose
product no longer exists, and — when a seller filter was supplied — lines of
other sellers. -/
def resolveLine (ps : ProductStore) (filter : String) (it : CartItem) :
    Option OrderItem :=
  match findProduct ps it.product_id with
  | none => none
  | some p =>
    if filter ≠ "" ∧ p.seller_id ≠ filter then none
    else some (toOrderItem it p)

/-- Append one resolved line to a seller group, accumulating total and item
count (lines 5103-5113). -/
def extendGroup (g : SellerGroup) (l : OrderItem) : SellerGroup :=
  { g with
    items := g.items ++ [l],
    total := g.total + l.price * (l.qty : Rat),
    total_items := g.total_items + l.qty }

/-- Fresh group created when a seller is seen for the first time
(lines 5094-5101). -/
def emptyGroup (sid sname : String) : SellerGroup :=
  { seller_id := sid, seller_name := sname, items := [], total := 0,
    total_items := 0 }

/-- Insert one resolved line into the seller-keyed group dict: extend the
existing group for this seller, or append a fresh one (Python dicts keep
insertion order). -/
def addToGroups (gs : List SellerGroup) (l : OrderItem) : List SellerGroup :=
  if gs.any (fun g => g.seller_id == l.seller_id) then
    gs.map (fun g => if g.seller_id == l.seller_id then extendGroup g l else g)
  else
    gs ++ [extendGroup (emptyGroup l.seller_id l.seller_name) l]

/-- The grouping loop of `checkout_order` (lines 5074-5113): resolve each
cart line and fold it into the seller groups. -/
def buildSellerGroups (ps : ProductStore) (filter : String)
    (items : List CartItem) : List SellerGroup :=
  items.foldl
    (fun gs it =>
      match resolveLine ps filter it with
      | none => gs
      | some l => addToGroups gs l)
    []

/-- Order document assembled for one seller group (lines 5121-5154); COD
orders are confirmed and paid immediately, gateway orders start pending. -/
def mkOrder (user_id : String) (g : SellerGroup) (order_number : String)
    (payment_method address now : String) : Order :=
  let cod := pyLower payment_method == "cod"
  { user_id := user_id,
    seller_id := g.seller_id,
    seller_name := g.seller_name,
    order_number := order_number,
    status := if cod then "confirmed" else "pending",
    total := g.total,
    total_items := g.total_items,
    payment_method := payment_method,
    payment_status := if cod then "completed" else "pending",
    payment_intent_id := none,
    paid_at := if cod then some now else none,
    address := address,
    items := g.items,
    stock_deducted_sellers := [],
    created_at := now,
    updated_at := now }

/-- Result of the external payment gateway's `create_intent` call. -/
structure PayIntent where
  payment_intent_id : String
  checkout_url : String
deriving Repr, DecidableEq

/-- Python `int()` applied to a rational: truncation toward zero. -/
def pyInt (q : Rat) : Int :=
  if 0 ≤ q then ⌊q⌋ else ⌈q⌉

/-- Write-back of the gateway intent id onto the created orders
(lines 5184-5186, the in-memory payloads returned to the caller). -/
def applyIntent (r : PayIntent) (os : List Order) : List Order :=
  os.map (fun o => { o with payment_intent_id := some r.payment_intent_id })

/-- What checkout leaves behind and returns: created orders, the cart's
items after clearing, and the response fields of lines 5268-5276. -/
structure CheckoutResult where
  orders : List Order
  cart_items_after : List CartItem
  response_status : String
  response_order : Option Order
  checkout_url : Option String
  payment_intent_id : Option String
deriving Repr, DecidableEq

/-- Payment-intent step of checkout (lines 5159-5186): for gateway payments
on a non-empty order list, request an intent over the summed total in
centavos and write its id back onto the created orders. -/
def gwStep (payment_method : String) (created : List Order)
    (gw : Int → Option PayIntent) :
    List Order × Option String × Option String :=
  if pyLower payment_method == "paymongo" ∧ created ≠ [] then
    match gw (pyInt ((created.map Order.total).sum * 100)) with
    | some r =>
      (applyIntent r created, some r.checkout_url, some r.payment_intent_id)
    | none => (created, none, none)
  else (created, none, none)

/-- Body of `checkout_order` once the cart has been fetched and found
non-empty: grouping (lines 5074-5116), order creation (5121-5157), payment
intent (5159-5186), cart clearing (5188-5200), response (5268-5276). -/
def checkout_core (user_id : String) (items : List CartItem)
    (ps : ProductStore) (payment_method address now filter : String)
    (onum : Nat → String) (gw : Int → Option PayIntent) :
    Except HttpError CheckoutResult :=
  let groups := buildSellerGroups ps filter items
  if filter ≠ "" ∧ groups = [] then
    .error ⟨400, "No items found for the selected seller"⟩
  else
    let created := groups.enum.map
      (fun ig => mkOrder user_id ig.2 (onum ig.1) payment_method address now)
    let gwOut := gwStep payment_method created gw
    let cart_after :=
      if filter ≠ "" then
        items.filter (fun it =>
          match findProduct ps it.product_id with
          | none => false
          | some p => p.seller_id ≠ filter)
      else []
    .ok { orders := gwOut.1,
          cart_items_after := cart_after,
          response_status := "success",
          response_order := gwOut.1.head?,
          checkout_url := gwOut.2.1,
          payment_intent_id := gwOut.2.2 }

/-- Embedding of `checkout_order` (server.py lines 5045-5276). `cart` is the
cart document's item list (`none` when no cart document exists), `onum`
supplies the date+random order numbers, `gw` is the external payment
gateway (`none` = unsuccessful intent creation). Best-effort receipt email
and audit-log side effects are outside the store model. -/
def checkout_order (role user_id : String) (cart : Option (List CartItem))
    (ps : ProductStore) (payment_method : String)
    (seller_id_filter : Option String) (address now : String)
    (onum : Nat → String) (gw : Int → Option PayIntent) :
    Except HttpError CheckoutResult :=
  if pyStrip (pyLower role) ≠ "user" then
    .error ⟨403, "Only regular users can place orders"⟩
  else
    match cart with
    | none => .error ⟨400, "Cart is empty"⟩
    | some items =>
      if items = [] then .error ⟨400, "Cart is empty"⟩
      else
        checkout_core user_id items ps payment_method address now
          (pyStrip (seller_id_filter.getD "")) onum gw

/-! ## Order status state machine (server.py, update_order_status,
lines 5392-5506, and cancel_order, lines 5339-5389) -/

/-- Set of the seller's own product ids (`find({"seller_id": seller_id})`
projected to `_id`, lines 5413-5414). -/
def sellerProductIds (ps : ProductStore) (seller_id : String) : List String :=
  (ps.filter (fun p => p.seller_id == seller_id)).map Product.id

/-- One iteration of the stock-deduction loop (lines 5426-5446): items of
other sellers and items whose product is gone are skipped; otherwise the
product document gets `stock_qty := max 0 (stock_qty - qty)` and
`sold_count` incremented by `qty`. -/
def deductItem (sids : List String) (ps : ProductStore) (it : OrderItem) :
    ProductStore :=
  if sids.contains it.product_id then
    match findProduct ps it.product_id with
    | none => ps
    | some product =>
      updateProduct ps it.product_id (fun p =>
        { p with
          stock_qty := max 0 (product.stock_qty - it.qty),
          sold_count := p.sold_count + it.qty })
  else ps

/-- Set-insertion into `stock_deducted_sellers` (`set(...).add(...)`,
lines 5424 and 5447). -/
def addSeller (l : List String) (s : String) : List String :=
  if l.contains s then l else l ++ [s]

/-- Embedding of `update_order_status` (server.py lines 5392-5506), the
seller-driven transition: validate the target status, authorize the seller
by item membership in their product set, run the one-time stock deduction
when moving to shipped, and overwrite the order's status. Notification
email and audit logging are best-effort side effects outside the model. -/
def update_order_status (ps : ProductStore) (doc : Order) (seller_id : String)
    (statusRaw : String) (now : String) :
    Except HttpError (ProductStore × Order) :=
  let status := pyStrip (pyLower statusRaw)
  if ¬ status ∈ (["confirmed", "shipped", "cancelled"] : List String) then
    .error ⟨400, "Invalid status value. Sellers can only set: confirmed, shipped, cancelled"⟩
  else
    let sids := sellerProductIds ps seller_id
    if sids = [] then .error ⟨403, "No seller products found"⟩
    else if ¬ doc.items.any (fun it => sids.contains it.product_id) then
      .error ⟨403, "No order items belong to this seller"⟩
    else if (status = "shipped" ∨ status = "delivered") ∧
        ¬ doc.stock_deducted_sellers.contains seller_id then
      .ok (doc.items.foldl (deductItem sids) ps,
           { doc with
             status := status,
             updated_at := now,
             stock_deducted_sellers :=
               addSeller doc.stock_deducted_sellers seller_id })
    else
      .ok (ps, { doc with status := status, updated_at := now })

/-- One seller-driven status-update request, for iterating transitions. -/
structure TransitionReq where
  doc : Order
  seller_id : String
  status : String
  now : String

/-- Product store after a sequence of seller status-update requests; a
request that errors leaves the store untouched. -/
def applyTransitions (ps : ProductStore) (ts : List TransitionReq) :
    ProductStore :=
  ts.foldl
    (fun cur t =>
      match update_order_status cur t.doc t.seller_id t.status t.now with
      | .ok res => res.1
      | .error _ => cur)
    ps

/-- Embedding of `cancel_order` (server.py lines 5339-5389), the
customer-initiated cancellation: only the owning regular user may cancel,
and only from pending or confirmed; the update writes status and
updated_at, nothing else. -/
def cancel_order (doc : Order) (role user_id : String) (now : String) :
    Except HttpError Order :=
  if pyStrip (pyLower role) ≠ "user" then
    .error ⟨403, "Only regular users can cancel orders"⟩
  else if doc.user_id ≠ user_id then
    .error ⟨403, "Not your order"⟩
  else
    let current := pyStrip (pyLower doc.status)
    if ¬ current ∈ (["pending", "confirmed"] : List String) then
      .error ⟨400, "Cannot cancel order with status '" ++ current ++
        "'. Only pending or confirmed orders can be cancelled."⟩
    else
      .ok { doc with status := "cancelled", updated_at := now }

/-! ## Admin moderation engine (server.py lines 2825-2932) and the
opportunistic reactivation check (auth_web.py lines 139-155) -/

/-- User document fields touched by deactivation/reactivation. Timestamps
are integers; `reactivate_at : none` models the empty string stored for
permanent bans. -/
structure UserDoc where
  id : String
  status : String
  deactivation_reason : String
  deactivation_reasons : List String
  deactivation_duration : String
  deactivated_at : Option Int
  reactivate_at : Option Int
  reactivated_at : Option Int
deriving Repr, DecidableEq

/-- Embedding of `_compute_reactivate_at` (server.py lines 2831-2845):
recognized duration tokens map to now + days, `permanent` to the empty
value, and anything else is treated as a custom ISO date (parsed by the
external `datetime.fromisoformat`, here the oracle `parseIso`) accepted
only when strictly in the future. -/
def compute_reactivate_at (parseIso : String → Option Int) (now : Int)
    (duration : String) : Option Int :=
  if duration = "1d" then some (now + 86400)
  else if duration = "3d" then some (now + 3 * 86400)
  else if duration = "7d" then some (now + 7 * 86400)
  else if duration = "14d" then some (now + 14 * 86400)
  else if duration = "30d" then some (now + 30 * 86400)
  else if duration = "permanent" then none
  else
    match parseIso duration with
    | some dt => if now < dt then some dt else none
    | none => none

/-- Combined reason text of lines 2868-2871: joined structured tags plus
stripped custom reason, else the plain reason, else a fixed fallback. -/
def combinedReason (reasons : List String) (custom_reason reason : String) :
    String :=
  let all := reasons ++ (if pyStrip custom_reason ≠ "" then [pyStrip custom_reason] else [])
  if all ≠ [] then String.intercalate "; " all
  else if reason ≠ "" then reason
  else "No reason provided"

/-- Embedding of the document update performed by `toggle_user_status`
(server.py lines 2847-2932): an active target becomes inactive with the
reason/duration bookkeeping and a computed `reactivate_at`; an inactive
target becomes active with those fields cleared. -/
def toggle_user_status (parseIso : String → Option Int) (target : UserDoc)
    (reasons : List String) (custom_reason reason duration : String)
    (now : Int) : UserDoc :=
  let all := reasons ++ (if pyStrip custom_reason ≠ "" then [pyStrip custom_reason] else [])
  if target.status = "active" then
    { target with
      status := "inactive",
      deactivation_reason := combinedReason reasons custom_reason reason,
      deactivation_reasons := all,
      deactivation_duration := duration,
      deactivated_at := some now,
      reactivate_at := compute_reactivate_at parseIso now duration }
  else
    { target with
      status := "active",
      deactivation_reason := "",
      deactivation_reasons := [],
      deactivation_duration := "",
      reactivate_at := none,
      reactivated_at := some now }

/-- Embedding of the opportunistic auto-reactivation inside
`_get_current_user` (auth_web.py lines 139-155): an inactive user with a
set `reactivate_at` that has passed is flipped back to active and the
deactivation fields are cleared. -/
def auto_reactivate (u : UserDoc) (now : Int) : UserDoc :=
  if u.status = "inactive" then
    match u.reactivate_at with
    | some r =>
      if r ≤ now then
        { u with
          status := "active",
          deactivation_reason := "",
          deactivation_reasons := [],
          deactivation_duration := "",
          reactivate_at := none,
          reactivated_at := some now }
      else u
    | none => u
  else u

/-! ## Spec-side quantities for the checkout claims -/

/-- All cart lines that resolve (and pass the seller filter), in order. -/
def resolvedLines (ps : ProductStore) (filter : String)
    (items : List CartItem) : List OrderItem :=
  items.filterMap (resolveLine ps filter)

/-- The resolved lines belonging to one seller. -/
def linesFor (s : String) (ls : List OrderItem) : List OrderItem :=
  ls.filter (fun l => l.seller_id == s)

/-- Sum of price times quantity over a list of order lines. -/
def sumTotal (ls : List OrderItem) : Rat :=
  (ls.map (fun l => l.price * (l.qty : Rat))).sum

/-- Sum of quantities over a list of order lines. -/
def sumQty (ls : List OrderItem) : Int :=
  (ls.map OrderItem.qty).sum

/-- Sum of price times qty over exactly this seller's cart lines, prices
read from the current product documents — the spec's formulation of an
order's total. -/
def sellerCartTotal (ps : ProductStore) (items : List CartItem) (s : String) :
    Rat :=
  (items.map (fun it =>
    match findProduct ps it.product_id with
    | some p => if p.seller_id == s then p.price * (it.qty : Rat) else 0
    | none => 0)).sum

/-- Sum of quantities over exactly this seller's cart lines. -/
def sellerCartQty (ps : ProductStore) (items : List CartItem) (s : String) :
    Int :=
  (items.map (fun it =>
    match findProduct ps it.product_id with
    | some p => if p.seller_id == s then it.qty else 0
    | none => 0)).sum

/-- First group with the given seller id (dict lookup). -/
def lookupGroup (s : String) (gs : List SellerGroup) : Option SellerGroup :=
  gs.find? (fun g => g.seller_id == s)

/-- Seller ids of the groups, in insertion order (dict keys). -/
def groupKeys (gs : List SellerGroup) : List String :=
  gs.map SellerGroup.seller_id

/-- The group a list of same-seller lines folds into, seeded from the first
line's seller name; `none` when there are no lines. -/
def groupOfLines (s : String) : List OrderItem → Option SellerGroup
  | [] => none
  | l :: rest =>
    some (rest.foldl extendGroup (extendGroup (emptyGroup s l.seller_name) l))

/-! ## Grouping lemmas -/

theorem extendGroup_seller_id (g : SellerGroup) (l : OrderItem) :
    (extendGroup g l).seller_id = g.seller_id := rfl

theorem lookupGroup_addToGroups (gs : List SellerGroup) (l : OrderItem)
    (s : String) :
    lookupGroup s (addToGroups gs l) =
      if l.seller_id = s then
        match lookupGroup s gs with
        | some g => some (extendGroup g l)
        | none => some (extendGroup (emptyGroup s l.seller_name) l)
      else lookupGroup s gs := by
  unfold addToGroups lookupGroup
  by_cases hmem : gs.any (fun g => g.seller_id == l.seller_id) = true
  · rw [if_pos hmem, List.find?_map]
    have hpres :
        ((fun g : SellerGroup => g.seller_id == s) ∘
          (fun g => if g.seller_id == l.seller_id then extendGroup g l else g))
        = fun g : SellerGroup => g.seller_id == s := by
      funext g
      by_cases h : g.seller_id = l.seller_id <;>
        simp [Function.comp, h, extendGroup]
    rw [hpres]
    by_cases hls : l.seller_id = s
    · subst hls
      rcases hfind : gs.find? (fun g => g.seller_id == l.seller_id) with _ | g
      · exfalso
        rw [List.find?_eq_none] at hfind
        obtain ⟨g, hg, hgs⟩ := List.any_eq_true.mp hmem
        exact hfind g hg hgs
      · have hsid : g.seller_id = l.seller_id := by
          simpa using List.find?_some hfind
        simp [hfind, hsid]
    · rw [if_neg hls]
      rcases hfind : gs.find? (fun g => g.seller_id == s) with _ | g
      · simp [hfind]
      · have hsid : g.seller_id = s := by
          simpa using List.find?_some hfind
        have hne : g.seller_id ≠ l.seller_id := by
          rw [hsid]
          exact fun h => hls h.symm
        simp [hfind, hne]
  · rw [if_neg hmem, List.find?_append]
    by_cases hls : l.seller_id = s
    · subst hls
      have hnone : gs.find? (fun g => g.seller_id == l.seller_id) = none := by
        rw [List.find?_eq_none]
        intro g hg hgs
        exact hmem (List.any_eq_true.mpr ⟨g, hg, hgs⟩)
      simp [hnone, extendGroup, emptyGroup]
    · rw [if_neg hls]
      have hsingle :
          ([extendGroup (emptyGroup l.seller_id l.seller_name) l].find?
            (fun g => g.seller_id == s)) = none := by
        simp [extendGroup, emptyGroup, hls]
      simp [hsingle]

theorem lookupGroup_foldl (ls : List OrderItem) :
    ∀ (gs : List SellerGroup) (s : String),
      lookupGroup s (ls.foldl addToGroups gs) =
        match lookupGroup s gs with
        | some g => some ((linesFor s ls).foldl extendGroup g)
        | none => groupOfLines s (linesFor s ls) := by
  induction ls with
  | nil =>
    intro gs s
    simp [linesFor, groupOfLines]
    cases lookupGroup s gs <;> simp
  | cons l ls ih =>
    intro gs s
    rw [List.foldl_cons, ih]
    by_cases hls : l.seller_id = s
    · have hlf : linesFor s (l :: ls) = l :: linesFor s ls := by
        simp [linesFor, hls]
      rw [hlf, lookupGroup_addToGroups, if_pos hls]
      rcases hg : lookupGroup s gs with _ | g
      · subst hls
        simp [groupOfLines]
      · simp
    · have hlf : linesFor s (l :: ls) = linesFor s ls := by
        simp [linesFor, hls]
      rw [hlf, lookupGroup_addToGroups, if_neg hls]

theorem lookupGroup_buildSellerGroups (ps : ProductStore) (filter : String)
    (items : List CartItem) (s : String) :
    lookupGroup s (buildSellerGroups ps filter items) =
      groupOfLines s (linesFor s (resolvedLines ps filter items)) := by
  have hfold : ∀ (its : List CartItem) (gs : List SellerGroup),
      its.foldl
        (fun gs it =>
          match resolveLine ps filter it with
          | none => gs
          | some l => addToGroups gs l) gs
      = (its.filterMap (resolveLine ps filter)).foldl addToGroups gs := by
    intro its
    induction its with
    | nil => intro gs; simp
    | cons it its ih =>
      intro gs
      rcases h : resolveLine ps filter it with _ | l <;>
        simp [List.filterMap_cons, h, ih]
  unfold buildSellerGroups resolvedLines
  rw [hfold, lookupGroup_foldl]
  simp [lookupGroup]

theorem foldl_extendGroup_fields (ls : List OrderItem) :
    ∀ g : SellerGroup,
      (ls.foldl extendGroup g).seller_id = g.seller_id ∧
      (ls.foldl extendGroup g).total = g.total + sumTotal ls ∧
      (ls.foldl extendGroup g).total_items = g.total_items + sumQty ls := by
  induction ls with
  | nil => intro g; simp [sumTotal, sumQty]
  | cons l ls ih =>
    intro g
    rw [List.foldl_cons]
    obtain ⟨h1, h2, h3⟩ := ih (extendGroup g l)
    refine ⟨h1, ?_, ?_⟩
    · rw [h2]
      simp [extendGroup, sumTotal]
      ring
    · rw [h3]
      simp [extendGroup, sumQty]
      ring

theorem groupOfLines_fields (s : String) (ls : List OrderItem)
    (g : SellerGroup) (h : groupOfLines s ls = some g) :
    g.seller_id = s ∧ g.total = sumTotal ls ∧ g.total_items = sumQty ls := by
  cases ls with
  | nil => simp [groupOfLines] at h
  | cons l rest =>
    simp only [groupOfLines, Option.some.injEq] at h
    subst h
    obtain ⟨h1, h2, h3⟩ :=
      foldl_extendGroup_fields rest (extendGroup (emptyGroup s l.seller_name) l)
    refine ⟨by simpa [extendGroup, emptyGroup] using h1, ?_, ?_⟩
    · rw [h2]
      simp [extendGroup, emptyGroup, sumTotal]
    · rw [h3]
      simp [extendGroup, emptyGroup, sumQty]

theorem groupOfLines_isSome (s : String) (ls : List OrderItem) :
    (groupOfLines s ls).isSome = true ↔ ls ≠ [] := by
  cases ls <;> simp [groupOfLines]

theorem groupKeys_addToGroups (gs : List SellerGroup) (l : OrderItem) :
    groupKeys (addToGroups gs l) =
      if gs.any (fun g => g.seller_id == l.seller_id) then groupKeys gs
      else groupKeys gs ++ [l.seller_id] := by
  unfold addToGroups groupKeys
  by_cases hmem : gs.any (fun g => g.seller_id == l.seller_id) = true
  · rw [if_pos hmem, if_pos hmem, List.map_map]
    apply List.map_congr_left
    intro g _
    by_cases h : g.seller_id = l.seller_id <;>
      simp [Function.comp, h, extendGroup]
  · rw [if_neg hmem, if_neg hmem]
    simp [extendGroup, emptyGroup]

theorem nodup_groupKeys_foldl (ls : List OrderItem) :
    ∀ gs : List SellerGroup, (groupKeys gs).Nodup →
      (groupKeys (ls.foldl addToGroups gs)).Nodup := by
  induction ls with
  | nil => intro gs h; simpa using h
  | cons l ls ih =>
    intro gs h
    rw [List.foldl_cons]
    apply ih
    rw [groupKeys_addToGroups]
    by_cases hmem : gs.any (fun g => g.seller_id == l.seller_id) = true
    · rwa [if_pos hmem]
    · rw [if_neg hmem]
      have hnotin : l.seller_id ∉ groupKeys gs := by
        intro hin
        obtain ⟨g, hg, hgs⟩ := List.mem_map.mp hin
        exact hmem (List.any_eq_true.mpr ⟨g, hg, by simp [hgs]⟩)
      simpa [List.nodup_append] using ⟨h, hnotin⟩

theorem mem_lookupGroup_of_nodup (gs : List SellerGroup) (g : SellerGroup)
    (hnd : (groupKeys gs).Nodup) (hmem : g ∈ gs) :
    lookupGroup g.seller_id gs = some g := by
  induction gs with
  | nil => simp at hmem
  | cons h t ih =>
    rw [List.mem_cons] at hmem
    rcases hmem with rfl | hmem
    · simp [lookupGroup]
    · have hne : ¬ (h.seller_id == g.seller_id) = true := by
        intro hbeq
        rw [beq_iff_eq] at hbeq
        have : g.seller_id ∈ groupKeys t :=
          List.mem_map.mpr ⟨g, hmem, rfl⟩
        rw [← hbeq] at this
        exact (List.nodup_cons.mp hnd).1 this
      have hstep :
          List.find? (fun x : SellerGroup => x.seller_id == g.seller_id) (h :: t)
            = List.find? (fun x : SellerGroup => x.seller_id == g.seller_id) t :=
        List.find?_cons_of_neg t hne
      rw [lookupGroup, hstep]
      exact ih (List.nodup_cons.mp hnd).2 hmem

theorem lookupGroup_isSome_iff_mem_keys (gs : List SellerGroup) (s : String) :
    (lookupGroup s gs).isSome = true ↔ s ∈ groupKeys gs := by
  unfold lookupGroup groupKeys
  rw [List.find?_isSome]
  constructor
  · rintro ⟨g, hg, hgs⟩
    rw [beq_iff_eq] at hgs
    exact List.mem_map.mpr ⟨g, hg, hgs⟩
  · intro h
    obtain ⟨g, hg, hgs⟩ := List.mem_map.mp h
    exact ⟨g, hg, by simp [hgs]⟩

theorem mem_keys_buildSellerGroups (ps : ProductStore) (filter : String)
    (items : List CartItem) (s : String) :
    s ∈ groupKeys (buildSellerGroups ps filter items) ↔
      s ∈ (resolvedLines ps filter items).map OrderItem.seller_id := by
  rw [← lookupGroup_isSome_iff_mem_keys, lookupGroup_buildSellerGroups,
    groupOfLines_isSome]
  unfold linesFor
  rw [ne_eq, List.filter_eq_nil_iff]
  push_neg
  constructor
  · rintro ⟨l, hl, hls⟩
    rw [beq_iff_eq] at hls
    exact List.mem_map.mpr ⟨l, hl, hls⟩
  · intro h
    obtain ⟨l, hl, hls⟩ := List.mem_map.mp h
    exact ⟨l, hl, by simp [hls]⟩

theorem nodup_keys_buildSellerGroups (ps : ProductStore) (filter : String)
    (items : List CartItem) :
    (groupKeys (buildSellerGroups ps filter items)).Nodup := by
  unfold buildSellerGroups
  have hfold : ∀ (its : List CartItem) (gs : List SellerGroup),
      its.foldl
        (fun gs it =>
          match resolveLine ps filter it with
          | none => gs
          | some l => addToGroups gs l) gs
      = (its.filterMap (resolveLine ps filter)).foldl addToGroups gs := by
    intro its
    induction its with
    | nil => intro gs; simp
    | cons it its ih =>
      intro gs
      rcases h : resolveLine ps filter it with _ | l <;>
        simp [List.filterMap_cons, h, ih]
  rw [hfold]
  exact nodup_groupKeys_foldl _ [] (by simp [groupKeys])

theorem length_buildSellerGroups (ps : ProductStore) (filter : String)
    (items : List CartItem) :
    (buildSellerGroups ps filter items).length =
      ((resolvedLines ps filter items).map OrderItem.seller_id).dedup.length := by
  have hnd := nodup_keys_buildSellerGroups ps filter items
  have hlen : (buildSellerGroups ps filter items).length =
      (groupKeys (buildSellerGroups ps filter items)).length := by
    simp [groupKeys]
  rw [hlen, ← List.toFinset_card_of_nodup hnd,
    ← List.toFinset_card_of_nodup
      (List.nodup_dedup ((resolvedLines ps filter items).map OrderItem.seller_id))]
  congr 1
  apply Finset.ext
  intro s
  simp only [List.mem_toFinset, List.mem_dedup]
  exact mem_keys_buildSellerGroups ps filter items s

theorem sumTotal_linesFor_resolved (ps : ProductStore) (items : List CartItem)
    (s : String) :
    sumTotal (linesFor s (resolvedLines ps "" items)) =
      sellerCartTotal ps items s := by
  induction items with
  | nil => simp [resolvedLines, linesFor, sumTotal, sellerCartTotal]
  | cons it rest ih =>
    have hcart : sellerCartTotal ps (it :: rest) s =
        (match findProduct ps it.product_id with
         | some p => if p.seller_id == s then p.price * (it.qty : Rat) else 0
         | none => 0) + sellerCartTotal ps rest s := by
      simp [sellerCartTotal]
    rcases hf : findProduct ps it.product_id with _ | p
    · have hres : resolveLine ps "" it = none := by simp [resolveLine, hf]
      rw [hcart, hf, resolvedLines, List.filterMap_cons, hres]
      simpa using ih
    · have hres : resolveLine ps "" it = some (toOrderItem it p) := by
        simp [resolveLine, hf]
      rw [hcart, resolvedLines, List.filterMap_cons, hres]
      by_cases hsid : p.seller_id = s
      · have hq : ((toOrderItem it p).seller_id == s) = true := by
          simp [toOrderItem, hsid]

        rw [linesFor, List.filter_cons, if_pos hq]
        have htail :
            List.filter (fun l => l.seller_id == s)
              (List.filterMap (resolveLine ps "") rest)
            = linesFor s (resolvedLines ps "" rest) := rfl
        rw [htail, sumTotal, List.map_cons, List.sum_cons]
        have hsum :
            (List.map (fun l => l.price * (l.qty : Rat))
              (linesFor s (resolvedLines ps "" rest))).sum
            = sumTotal (linesFor s (resolvedLines ps "" rest)) := rfl
        rw [hsum, ih, hf]
        simp [toOrderItem, hsid]
      · have hq : ¬ ((toOrderItem it p).seller_id == s) = true := by
          simp [toOrderItem, hsid]
        rw [linesFor, List.filter_cons, if_neg hq]
        have htail :
            List.filter (fun l => l.seller_id == s)
              (List.filterMap (resolveLine ps "") rest)
            = linesFor s (resolvedLines ps "" rest) := rfl
        rw [htail, ih, hf]
        simp [hsid]

theorem sumQty_linesFor_resolved (ps : ProductStore) (items : List CartItem)
    (s : String) :
    sumQty (linesFor s (resolvedLines ps "" items)) =
      sellerCartQty ps items s := by
  induction items with
  | nil => simp [resolvedLines, linesFor, sumQty, sellerCartQty]
  | cons it rest ih =>
    have hcart : sellerCartQty ps (it :: rest) s =
        (match findProduct ps it.product_id with
         | some p => if p.seller_id == s then it.qty else 0
         | none => 0) + sellerCartQty ps rest s := by
      simp [sellerCartQty]
    rcases hf : findProduct ps it.product_id with _ | p
    · have hres : resolveLine ps "" it = none := by simp [resolveLine, hf]
      rw [hcart, hf, resolvedLines, List.filterMap_cons, hres]
      simpa using ih
    · have hres : resolveLine ps "" it = some (toOrderItem it p) := by
        simp [resolveLine, hf]
      rw [hcart, resolvedLines, List.filterMap_cons, hres]
      by_cases hsid : p.seller_id = s
      · have hq : ((toOrderItem it p).seller_id == s) = true := by
          simp [toOrderItem, hsid]
        rw [linesFor, List.filter_cons, if_pos hq]
        have htail :
            List.filter (fun l => l.seller_id == s)
              (List.filterMap (resolveLine ps "") rest)
            = linesFor s (resolvedLines ps "" rest) := rfl
        rw [htail, sumQty, List.map_cons, List.sum_cons]
        have hsum :
            (List.map OrderItem.qty
              (linesFor s (resolvedLines ps "" rest))).sum
            = sumQty (linesFor s (resolvedLines ps "" rest)) := rfl
        rw [hsum, ih, hf]
        simp [toOrderItem, hsid]
      · have hq : ¬ ((toOrderItem it p).seller_id == s) = true := by
          simp [toOrderItem, hsid]
        rw [linesFor, List.filter_cons, if_neg hq]
        have htail :
            List.filter (fun l => l.seller_id == s)
              (List.filterMap (resolveLine ps "") rest)
            = linesFor s (resolvedLines ps "" rest) := rfl
        rw [htail, ih, hf]
        simp [hsid]

theorem mem_buildSellerGroups_fields (ps : ProductStore) (filter : String)
    (items : List CartItem) (g : SellerGroup)
    (hmem : g ∈ buildSellerGroups ps filter items) :
    g.total = sumTotal (linesFor g.seller_id (resolvedLines ps filter items)) ∧
    g.total_items =
      sumQty (linesFor g.seller_id (resolvedLines ps filter items)) := by
  have hnd := nodup_keys_buildSellerGroups ps filter items
  have hl := mem_lookupGroup_of_nodup _ g hnd hmem
  rw [lookupGroup_buildSellerGroups] at hl
  have hfields := groupOfLines_fields _ _ _ hl
  exact ⟨hfields.2.1, hfields.2.2⟩

theorem mkOrder_seller_id (uid : String) (g : SellerGroup) (n pm addr now : String) :
    (mkOrder uid g n pm addr now).seller_id = g.seller_id := rfl

theorem mkOrder_total (uid : String) (g : SellerGroup) (n pm addr now : String) :
    (mkOrder uid g n pm addr now).total = g.total := rfl

theorem mkOrder_total_items (uid : String) (g : SellerGroup) (n pm addr now : String) :
    (mkOrder uid g n pm addr now).total_items = g.total_items := rfl

theorem created_orders_spec (ps : ProductStore) (items : List CartItem)
    (uid pm addr now : String) (onum : Nat → String) (created : List Order)
    (hc : created = (buildSellerGroups ps "" items).enum.map
      (fun ig => mkOrder uid ig.2 (onum ig.1) pm addr now)) :
    created.length =
      ((resolvedLines ps "" items).map OrderItem.seller_id).dedup.length ∧
    created.map Order.seller_id = groupKeys (buildSellerGroups ps "" items) ∧
    ∀ o ∈ created, o.total = sellerCartTotal ps items o.seller_id ∧
      o.total_items = sellerCartQty ps items o.seller_id := by
  subst hc
  refine ⟨?_, ?_, ?_⟩
  · rw [List.length_map, List.enum_length]
    exact length_buildSellerGroups ps "" items
  · rw [List.map_map]
    have hcomp :
        (Order.seller_id ∘ fun ig : Nat × SellerGroup =>
          mkOrder uid ig.2 (onum ig.1) pm addr now)
        = SellerGroup.seller_id ∘ Prod.snd := by
      funext ig
      rfl
    rw [hcomp, ← List.map_map, List.enum_map_snd]
    rfl
  · intro o ho
    obtain ⟨ig, hig, rfl⟩ := List.mem_map.mp ho
    have hg : ig.2 ∈ buildSellerGroups ps "" items := by
      have hmem : ig.2 ∈ (buildSellerGroups ps "" items).enum.map Prod.snd :=
        List.mem_map.mpr ⟨ig, hig, rfl⟩
      rwa [List.enum_map_snd] at hmem
    have hfields := mem_buildSellerGroups_fields ps "" items ig.2 hg
    rw [mkOrder_total, mkOrder_total_items, mkOrder_seller_id]
    rw [hfields.1, hfields.2]
    exact ⟨sumTotal_linesFor_resolved ps items ig.2.seller_id,
      sumQty_linesFor_resolved ps items ig.2.seller_id⟩

theorem applyIntent_map_seller (r : PayIntent) (os : List Order) :
    (applyIntent r os).map Order.seller_id = os.map Order.seller_id := by
  unfold applyIntent
  rw [List.map_map]
  apply List.map_congr_left
  intro o _
  rfl

theorem applyIntent_length (r : PayIntent) (os : List Order) :
    (applyIntent r os).length = os.length := by
  simp [applyIntent]

theorem mem_applyIntent (r : PayIntent) (os : List Order) (o : Order)
    (h : o ∈ applyIntent r os) :
    ∃ o0 ∈ os, o.seller_id = o0.seller_id ∧ o.total = o0.total ∧
      o.total_items = o0.total_items := by
  obtain ⟨o0, ho0, rfl⟩ := List.mem_map.mp h
  exact ⟨o0, ho0, rfl, rfl, rfl⟩

theorem gwStep_fst_length (pm : String) (created : List Order)
    (gw : Int → Option PayIntent) :
    (gwStep pm created gw).1.length = created.length := by
  unfold gwStep
  by_cases h : (pyLower pm == "paymongo") ∧ created ≠ []
  · rw [if_pos h]
    cases hg : gw (pyInt ((created.map Order.total).sum * 100)) with
    | none => simp
    | some r => simp [applyIntent_length]
  · rw [if_neg h]

theorem gwStep_map_seller (pm : String) (created : List Order)
    (gw : Int → Option PayIntent) :
    (gwStep pm created gw).1.map Order.seller_id =
      created.map Order.seller_id := by
  unfold gwStep
  by_cases h : (pyLower pm == "paymongo") ∧ created ≠ []
  · rw [if_pos h]
    cases hg : gw (pyInt ((created.map Order.total).sum * 100)) with
    | none => simp
    | some r => simp [applyIntent_map_seller]
  · rw [if_neg h]

theorem gwStep_mem (pm : String) (created : List Order)
    (gw : Int → Option PayIntent) (o : Order)
    (h : o ∈ (gwStep pm created gw).1) :
    ∃ o0 ∈ created, o.seller_id = o0.seller_id ∧ o.total = o0.total ∧
      o.total_items = o0.total_items := by
  unfold gwStep at h
  by_cases hc : (pyLower pm == "paymongo") ∧ created ≠ []
  · rw [if_pos hc] at h
    cases hg : gw (pyInt ((created.map Order.total).sum * 100)) with
    | none =>
      rw [hg] at h
      exact ⟨o, h, rfl, rfl, rfl⟩
    | some r =>
      rw [hg] at h
      exact mem_applyIntent r created o h
  · rw [if_neg hc] at h
    exact ⟨o, h, rfl, rfl, rfl⟩

theorem checkout_order_to_core (role uid : String) (items : List CartItem)
    (ps : ProductStore) (pm : String) (sf : Option String)
    (addr now : String) (onum : Nat → String) (gw : Int → Option PayIntent)
    (hrole : pyStrip (pyLower role) = "user") (hne : items ≠ []) :
    checkout_order role uid (some items) ps pm sf addr now onum gw =
      checkout_core uid items ps pm addr now (pyStrip (sf.getD "")) onum gw := by
  unfold checkout_order
  rw [if_neg (by rw [hrole]; exact fun h => h rfl)]
  exact if_neg hne

theorem checkout_core_no_filter (uid : String) (items : List CartItem)
    (ps : ProductStore) (pm addr now : String) (onum : Nat → String)
    (gw : Int → Option PayIntent) :
    checkout_core uid items ps pm addr now "" onum gw =
      .ok { orders := (gwStep pm ((buildSellerGroups ps "" items).enum.map
              (fun ig => mkOrder uid ig.2 (onum ig.1) pm addr now)) gw).1,
            cart_items_after := [],
            response_status := "success",
            response_order := (gwStep pm ((buildSellerGroups ps "" items).enum.map
              (fun ig => mkOrder uid ig.2 (onum ig.1) pm addr now)) gw).1.head?,
            checkout_url := (gwStep pm ((buildSellerGroups ps "" items).enum.map
              (fun ig => mkOrder uid ig.2 (onum ig.1) pm addr now)) gw).2.1,
            payment_intent_id := (gwStep pm ((buildSellerGroups ps "" items).enum.map
              (fun ig => mkOrder uid ig.2 (onum ig.1) pm addr now)) gw).2.2 } := by
  simp [checkout_core]

/-- Seller ids of the products the cart items resolve to, in cart order;
its deduplicated length is the number N of distinct sellers in the cart. -/
def cartSellers (ps : ProductStore) (items : List CartItem) : List String :=
  items.filterMap (fun it => (findProduct ps it.product_id).map Product.seller_id)

theorem resolved_sellers_eq (ps : ProductStore) (items : List CartItem) :
    (resolvedLines ps "" items).map OrderItem.seller_id =
      cartSellers ps items := by
  unfold resolvedLines cartSellers
  rw [List.map_filterMap]
  apply List.filterMap_congr
  intro it _
  rcases hf : findProduct ps it.product_id with _ | p <;>
    simp [resolveLine, hf, toOrderItem]

/-- C1: for every non-empty cart whose items all resolve to products (no
seller filter supplied), checkout succeeds and creates exactly one order
per distinct seller (N = deduplicated seller list of the cart's products),
each order's total being the sum of price times qty over exactly that
seller's cart lines with prices read from the current product documents,
its total_items the sum of those lines' quantities, and the cart's items
list is empty afterward. -/
theorem checkout_splits_by_seller
    (role uid : String) (items : List CartItem) (ps : ProductStore)
    (pm addr now : String) (onum : Nat → String) (gw : Int → Option PayIntent)
    (hrole : pyStrip (pyLower role) = "user") (hne : items ≠ [])
    (_hres : ∀ it ∈ items, (findProduct ps it.product_id).isSome = true) :
    ∃ r, checkout_order role uid (some items) ps pm none addr now onum gw
        = .ok r ∧
      r.orders.length = (cartSellers ps items).dedup.length ∧
      (r.orders.map Order.seller_id).Nodup ∧
      (∀ o ∈ r.orders, o.total = sellerCartTotal ps items o.seller_id ∧
        o.total_items = sellerCartQty ps items o.seller_id) ∧
      r.cart_items_after = [] := by
  have h1 : checkout_order role uid (some items) ps pm none addr now onum gw
      = checkout_core uid items ps pm addr now "" onum gw :=
    checkout_order_to_core role uid items ps pm none addr now onum gw hrole hne
  have h2 := checkout_core_no_filter uid items ps pm addr now onum gw
  obtain ⟨hlen, hmap, hfields⟩ :=
    created_orders_spec ps items uid pm addr now onum
      ((buildSellerGroups ps "" items).enum.map
        (fun ig => mkOrder uid ig.2 (onum ig.1) pm addr now)) rfl
  refine ⟨_, h1.trans h2, ?_, ?_, ?_, rfl⟩
  · rw [gwStep_fst_length, hlen, resolved_sellers_eq]
  · rw [gwStep_map_seller, hmap]
    have := nodup_keys_buildSellerGroups ps "" items
    simpa [groupKeys] using this
  · intro o ho
    obtain ⟨o0, ho0, hs, ht, hti⟩ := gwStep_mem pm _ gw o ho
    have hf := hfields o0 ho0
    rw [ht, hti, hs]
    exact hf

/-- Concrete two-seller COD checkout exercising `checkout_splits_by_seller`:
cart lines for products of sellers s1 and s2 (prices 100 and 50, qty 2 and
1), matching the spec's worked example. -/
def demoPs : ProductStore :=
  [{ id := "p1", seller_id := "s1", seller_name := "Alice", name := "A",
     price := 100, stock_qty := 5, sold_count := 0, images := [],
     main_image_index := 0 },
   { id := "p2", seller_id := "s2", seller_name := "Bob", name := "B",
     price := 50, stock_qty := 3, sold_count := 0, images := [],
     main_image_index := 0 }]

/-- Concrete cart for the checkout witnesses. -/
def demoCart : List CartItem :=
  [{ product_id := "p1", qty := 2 }, { product_id := "p2", qty := 1 }]

/-- Witness for C1 at the concrete two-seller cart. -/
theorem checkout_splits_by_seller_witness :
    ∃ r, checkout_order "user" "u1" (some demoCart) demoPs "cod" none
        "addr" "t0" (fun _ => "ORD") (fun _ => none) = .ok r ∧
      r.orders.length = (cartSellers demoPs demoCart).dedup.length ∧
      (r.orders.map Order.seller_id).Nodup ∧
      (∀ o ∈ r.orders, o.total = sellerCartTotal demoPs demoCart o.seller_id ∧
        o.total_items = sellerCartQty demoPs demoCart o.seller_id) ∧
      r.cart_items_after = [] :=
  checkout_splits_by_seller "user" "u1" demoCart demoPs "cod" "addr" "t0"
    (fun _ => "ORD") (fun _ => none) (by decide) (by decide) (by decide)

/-- C10: with no seller filter and a non-empty cart all of whose lines
reference products that no longer exist, checkout is not an error: it
creates zero orders, clears the cart, and responds success with an empty
orders list and a null order (the 400 check fires only under a filter). -/
theorem checkout_all_products_missing
    (role uid : String) (items : List CartItem) (ps : ProductStore)
    (pm addr now : String) (onum : Nat → String) (gw : Int → Option PayIntent)
    (hrole : pyStrip (pyLower role) = "user") (hne : items ≠ [])
    (hmiss : ∀ it ∈ items, findProduct ps it.product_id = none) :
    checkout_order role uid (some items) ps pm none addr now onum gw =
      .ok { orders := [], cart_items_after := [],
            response_status := "success", response_order := none,
            checkout_url := none, payment_intent_id := none } := by
  have hgroups : buildSellerGroups ps "" items = [] := by
    unfold buildSellerGroups
    have hgen : ∀ (its : List CartItem),
        (∀ it ∈ its, findProduct ps it.product_id = none) →
        ∀ gs : List SellerGroup,
          its.foldl
            (fun gs it =>
              match resolveLine ps "" it with
              | none => gs
              | some l => addToGroups gs l) gs = gs := by
      intro its
      induction its with
      | nil => intro _ gs; rfl
      | cons it rest ih =>
        intro h gs
        rw [List.foldl_cons]
        have hres : resolveLine ps "" it = none := by
          simp [resolveLine, h it (List.mem_cons_self it rest)]
        rw [hres]
        exact ih (fun x hx => h x (List.mem_cons_of_mem it hx)) gs
    exact hgen items hmiss []
  have h1 : checkout_order role uid (some items) ps pm none addr now onum gw
      = checkout_core uid items ps pm addr now "" onum gw :=
    checkout_order_to_core role uid items ps pm none addr now onum gw hrole hne
  rw [h1, checkout_core_no_filter, hgroups]
  simp [gwStep]

/-- Witness for C10: one cart line whose product id matches nothing. -/
theorem checkout_all_products_missing_witness :
    checkout_order "user" "u1" (some [{ product_id := "zz", qty := 1 }])
        demoPs "cod" none "addr" "t0" (fun _ => "ORD") (fun _ => none) =
      .ok { orders := [], cart_items_after := [],
            response_status := "success", response_order := none,
            checkout_url := none, payment_intent_id := none } :=
  checkout_all_products_missing "user" "u1" [{ product_id := "zz", qty := 1 }]
    demoPs "cod" "addr" "t0" (fun _ => "ORD") (fun _ => none)
    (by decide) (by decide) (by decide)

/-- C2: when the seller is already in the order's `stock_deducted_sellers`
set, a second authorized transition to shipped succeeds but is a no-op on
the product store — every product's stock_qty and sold_count unchanged;
the order merely gets the status and timestamp overwritten. -/
theorem stock_deduction_idempotent (ps : ProductStore) (doc : Order)
    (sid statusRaw now : String)
    (hstat : pyStrip (pyLower statusRaw) = "shipped")
    (hauth : doc.items.any
      (fun it => (sellerProductIds ps sid).contains it.product_id) = true)
    (hmem : doc.stock_deducted_sellers.contains sid = true) :
    update_order_status ps doc sid statusRaw now =
      .ok (ps, { doc with status := "shipped", updated_at := now }) := by
  unfold update_order_status
  dsimp only
  rw [hstat]
  have hsids : ¬ sellerProductIds ps sid = [] := by
    intro h0
    rw [List.any_eq_true] at hauth
    obtain ⟨it, _, hc⟩ := hauth
    rw [h0] at hc
    simp at hc
  rw [if_neg (by simp), if_neg hsids, if_neg (not_not_intro hauth),
    if_neg (fun hc => hc.2 hmem)]

/-- Demo order of seller s1 (product p1, qty 2) used by the status-update
witnesses; stock has already been deducted for s1. -/
def demoOrderDeducted : Order :=
  { user_id := "u1", seller_id := "s1", seller_name := "Alice",
    order_number := "ORD", status := "confirmed", total := 200,
    total_items := 2, payment_method := "cod",
    payment_status := "completed", payment_intent_id := none,
    paid_at := some "t0", address := "addr",
    items := [{ product_id := "p1", seller_id := "s1",
                seller_name := "Alice", name := "A", price := 100,
                qty := 2, image_url := "" }],
    stock_deducted_sellers := ["s1"], created_at := "t0",
    updated_at := "t0" }

/-- Witness for C2: the second shipped transition leaves `demoPs` intact. -/
theorem stock_deduction_idempotent_witness :
    update_order_status demoPs demoOrderDeducted "s1" "shipped" "t1" =
      .ok (demoPs,
        { demoOrderDeducted with status := "shipped", updated_at := "t1" }) :=
  stock_deduction_idempotent demoPs demoOrderDeducted "s1" "shipped" "t1"
    (by decide) (by decide) (by decide)

theorem mem_updateProduct (ps : ProductStore) (pid : String)
    (f : Product → Product) (q : Product) (h : q ∈ updateProduct ps pid f) :
    q ∈ ps ∨ ∃ p ∈ ps, q = f p := by
  induction ps with
  | nil => simp [updateProduct] at h
  | cons p rest ih =>
    rw [updateProduct] at h
    by_cases hc : (p.id == pid) = true
    · rw [if_pos hc] at h
      rcases List.mem_cons.mp h with rfl | hm
      · exact Or.inr ⟨p, List.mem_cons_self p rest, rfl⟩
      · exact Or.inl (List.mem_cons_of_mem p hm)
    · rw [if_neg hc] at h
      rcases List.mem_cons.mp h with rfl | hm
      · exact Or.inl (List.mem_cons_self _ _)
      · rcases ih hm with h1 | ⟨p0, hp0, rfl⟩
        · exact Or.inl (List.mem_cons_of_mem p h1)
        · exact Or.inr ⟨p0, List.mem_cons_of_mem p hp0, rfl⟩

theorem deductItem_stock_nonneg (sids : List String) (ps : ProductStore)
    (it : OrderItem) (hpos : ∀ p ∈ ps, 0 ≤ p.stock_qty) :
    ∀ q ∈ deductItem sids ps it, 0 ≤ q.stock_qty := by
  intro q hq
  unfold deductItem at hq
  by_cases hc : sids.contains it.product_id = true
  · rw [if_pos hc] at hq
    rcases hf : findProduct ps it.product_id with _ | product
    · rw [hf] at hq
      exact hpos q hq
    · rw [hf] at hq
      rcases mem_updateProduct _ _ _ q hq with hm | ⟨p, _, rfl⟩
      · exact hpos q hm
      · simp
  · rw [if_neg hc] at hq
    exact hpos q hq

theorem foldl_deduct_stock_nonneg (sids : List String)
    (its : List OrderItem) :
    ∀ ps : ProductStore, (∀ p ∈ ps, 0 ≤ p.stock_qty) →
      ∀ q ∈ its.foldl (deductItem sids) ps, 0 ≤ q.stock_qty := by
  induction its with
  | nil => intro ps hpos q hq; exact hpos q hq
  | cons it rest ih =>
    intro ps hpos q hq
    rw [List.foldl_cons] at hq
    exact ih (deductItem sids ps it) (deductItem_stock_nonneg sids ps it hpos)
      q hq

theorem update_order_status_stock_nonneg (ps : ProductStore) (doc : Order)
    (sid statusRaw now : String) (ps' : ProductStore) (doc' : Order)
    (h : update_order_status ps doc sid statusRaw now = .ok (ps', doc'))
    (hpos : ∀ p ∈ ps, 0 ≤ p.stock_qty) :
    ∀ q ∈ ps', 0 ≤ q.stock_qty := by
  unfold update_order_status at h
  dsimp only at h
  by_cases h1 : ¬ pyStrip (pyLower statusRaw) ∈
      (["confirmed", "shipped", "cancelled"] : List String)
  · rw [if_pos h1] at h
    simp at h
  · rw [if_neg h1] at h
    by_cases h2 : sellerProductIds ps sid = []
    · rw [if_pos h2] at h
      simp at h
    · rw [if_neg h2] at h
      by_cases h3 : ¬ doc.items.any
          (fun it => (sellerProductIds ps sid).contains it.product_id) = true
      · rw [if_pos h3] at h
        simp at h
      · rw [if_neg h3] at h
        by_cases h4 : (pyStrip (pyLower statusRaw) = "shipped" ∨
            pyStrip (pyLower statusRaw) = "delivered") ∧
            ¬ doc.stock_deducted_sellers.contains sid = true
        · rw [if_pos h4] at h
          simp only [Except.ok.injEq, Prod.mk.injEq] at h
          rw [← h.1]
          exact foldl_deduct_stock_nonneg _ doc.items ps hpos
        · rw [if_neg h4] at h
          simp only [Except.ok.injEq, Prod.mk.injEq] at h
          rw [← h.1]
          exact hpos

/-- C3: starting from a store with only non-negative stock, any number of
seller status-update requests (each deduction writing
`max 0 (stock - qty)`) leaves every product's stock_qty non-negative, even
when an ordered qty exceeds the remaining stock. -/
theorem stock_qty_nonneg_invariant (ts : List TransitionReq)
    (ps : ProductStore) (hpos : ∀ p ∈ ps, 0 ≤ p.stock_qty) :
    ∀ q ∈ applyTransitions ps ts, 0 ≤ q.stock_qty := by
  induction ts generalizing ps with
  | nil =>
    intro q hq
    exact hpos q hq
  | cons t rest ih =>
    intro q hq
    unfold applyTransitions at hq
    rw [List.foldl_cons] at hq
    have hstep : ∀ q0 ∈ (match update_order_status ps t.doc t.seller_id
        t.status t.now with
        | .ok res => res.1
        | .error _ => ps), 0 ≤ q0.stock_qty := by
      rcases hu : update_order_status ps t.doc t.seller_id t.status t.now
        with e | res
      · simpa using hpos
      · rcases res with ⟨ps2, doc2⟩
        simpa using
          update_order_status_stock_nonneg ps t.doc t.seller_id t.status
            t.now ps2 doc2 hu hpos
    exact ih _ hstep q hq

/-- Order with qty 5 of product p1 (stock 5): one shipped transition for
seller s1 followed by a repeat, plus one for an order of qty 9 (more than
remains), for the C3 witness. -/
def demoOrderBig : Order :=
  { demoOrderDeducted with
    stock_deducted_sellers := [],
    items := [{ product_id := "p1", seller_id := "s1",
                seller_name := "Alice", name := "A", price := 100,
                qty := 9, image_url := "" }] }

/-- Witness for C3: deducting qty 9 from stock 5 floors at 0. -/
theorem stock_qty_nonneg_invariant_witness :
    (∀ p ∈ demoPs, 0 ≤ p.stock_qty) ∧
    ∀ q ∈ applyTransitions demoPs
      [{ doc := demoOrderBig, seller_id := "s1", status := "shipped",
         now := "t1" }], 0 ≤ q.stock_qty :=
  ⟨by decide,
    stock_qty_nonneg_invariant
      [{ doc := demoOrderBig, seller_id := "s1", status := "shipped",
         now := "t1" }] demoPs (by decide)⟩

/-- C4: a seller none of whose products occur among the order's items —
in particular a seller owning no products at all — gets 403 from the
status-update endpoint for any valid target status, and no update is
performed (the handler raises before any write). -/
theorem seller_unauthorized_403 (ps : ProductStore) (doc : Order)
    (sid statusRaw now : String)
    (hstat : pyStrip (pyLower statusRaw) ∈
      (["confirmed", "shipped", "cancelled"] : List String))
    (hno : ∀ it ∈ doc.items,
      (sellerProductIds ps sid).contains it.product_id = false) :
    ∃ d, update_order_status ps doc sid statusRaw now = .error ⟨403, d⟩ := by
  unfold update_order_status
  dsimp only
  rw [if_neg (not_not_intro hstat)]
  by_cases hsids : sellerProductIds ps sid = []
  · rw [if_pos hsids]
    exact ⟨_, rfl⟩
  · rw [if_neg hsids]
    have hany : doc.items.any
        (fun it => (sellerProductIds ps sid).contains it.product_id) = false := by
      rw [List.any_eq_false]
      intro it hit
      simpa using hno it hit
    rw [if_pos (by rw [hany]; simp)]
    exact ⟨_, rfl⟩

/-- Witness for C4: seller s2 owns p2 only, while the order's items are all
p1 — the shipped request yields 403. -/
theorem seller_unauthorized_403_witness :
    ∃ d, update_order_status demoPs demoOrderDeducted "s2" "shipped" "t1" =
      .error ⟨403, d⟩ :=
  seller_unauthorized_403 demoPs demoOrderDeducted "s2" "shipped" "t1"
    (by decide) (by decide)

/-- C9: the seller path never examines the order's current status — for any
current status (delivered and cancelled included) and any requested target
among confirmed/shipped/cancelled, an authorized seller's request succeeds
and overwrites the status; no forward-only ordering is enforced. -/
theorem seller_status_overwrite_any (ps : ProductStore) (doc : Order)
    (sid statusRaw now : String)
    (hstat : pyStrip (pyLower statusRaw) ∈
      (["confirmed", "shipped", "cancelled"] : List String))
    (hauth : doc.items.any
      (fun it => (sellerProductIds ps sid).contains it.product_id) = true) :
    ∃ ps' doc', update_order_status ps doc sid statusRaw now
        = .ok (ps', doc') ∧
      doc'.status = pyStrip (pyLower statusRaw) := by
  unfold update_order_status
  dsimp only
  rw [if_neg (not_not_intro hstat)]
  have hsids : ¬ sellerProductIds ps sid = [] := by
    intro h0
    rw [List.any_eq_true] at hauth
    obtain ⟨it, _, hc⟩ := hauth
    rw [h0] at hc
    simp at hc
  rw [if_neg hsids, if_neg (not_not_intro hauth)]
  by_cases hded : (pyStrip (pyLower statusRaw) = "shipped" ∨
      pyStrip (pyLower statusRaw) = "delivered") ∧
      ¬ doc.stock_deducted_sellers.contains sid = true
  · rw [if_pos hded]
    exact ⟨_, _, rfl, rfl⟩
  · rw [if_neg hded]
    exact ⟨_, _, rfl, rfl⟩

/-- Witness for C9: a delivered order of seller s1 is pushed back to
confirmed. -/
theorem seller_status_overwrite_any_witness :
    ∃ ps' doc',
      update_order_status demoPs
        { demoOrderDeducted with status := "delivered" } "s1" "confirmed"
        "t1" = .ok (ps', doc') ∧
      doc'.status = pyStrip (pyLower "confirmed") :=
  seller_status_overwrite_any demoPs
    { demoOrderDeducted with status := "delivered" } "s1" "confirmed" "t1"
    (by decide) (by decide)

/-- C6: the owning regular user's cancel request is rejected with 400
whenever the order's current status is outside pending/confirmed
(delivered in particular), leaving the order untouched; from pending or
confirmed it succeeds, setting status to cancelled and updated_at, and
changing no other field — `cancel_order` performs no stock or payment
write at all (the product store is not even an input of this handler). -/
theorem cancel_order_spec (doc : Order) (role uid now : String)
    (hrole : pyStrip (pyLower role) = "user") (hown : doc.user_id = uid) :
    (¬ pyStrip (pyLower doc.status) ∈ (["pending", "confirmed"] : List String) →
      cancel_order doc role uid now =
        .error ⟨400, "Cannot cancel order with status '" ++
          pyStrip (pyLower doc.status) ++
          "'. Only pending or confirmed orders can be cancelled."⟩) ∧
    (pyStrip (pyLower doc.status) ∈ (["pending", "confirmed"] : List String) →
      cancel_order doc role uid now =
        .ok { doc with status := "cancelled", updated_at := now }) := by
  unfold cancel_order
  rw [if_neg (by rw [hrole]; exact fun h => h rfl),
    if_neg (by rw [hown]; exact fun h => h rfl)]
  dsimp only
  constructor
  · intro h
    rw [if_pos h]
  · intro h
    rw [if_neg (not_not_intro h)]

/-- Witness for C6: a delivered order cannot be cancelled (400), a pending
one can, and cancellation changes only status and updated_at. -/
theorem cancel_order_spec_witness :
    cancel_order { demoOrderDeducted with status := "delivered" } "user" "u1"
        "t2" =
      .error ⟨400, "Cannot cancel order with status 'delivered'. Only pending or confirmed orders can be cancelled."⟩ ∧
    cancel_order { demoOrderDeducted with status := "pending" } "user" "u1"
        "t2" =
      .ok { demoOrderDeducted with status := "cancelled", updated_at := "t2" } :=
  ⟨(cancel_order_spec { demoOrderDeducted with status := "delivered" }
      "user" "u1" "t2" (by decide) (by decide)).1 (by decide),
   (cancel_order_spec { demoOrderDeducted with status := "pending" }
      "user" "u1" "t2" (by decide) (by decide)).2 (by decide)⟩

/-- C7: deactivating an active user with duration "1d" at time T sets
status inactive and reactivate_at = T + 24h (86400 s); and any
authenticated request from such a user at a time at or past reactivate_at
flips the status back to active and clears deactivation_reason together
with the other deactivation fields. -/
theorem timed_deactivation_reactivation (parseIso : String → Option Int)
    (u : UserDoc) (reasons : List String) (custom_reason reason : String)
    (T tReq : Int) (hactive : u.status = "active")
    (hlate : T + 86400 ≤ tReq) :
    (toggle_user_status parseIso u reasons custom_reason reason "1d" T).status
        = "inactive" ∧
    (toggle_user_status parseIso u reasons custom_reason reason "1d"
        T).reactivate_at = some (T + 86400) ∧
    (auto_reactivate
        (toggle_user_status parseIso u reasons custom_reason reason "1d" T)
        tReq).status = "active" ∧
    (auto_reactivate
        (toggle_user_status parseIso u reasons custom_reason reason "1d" T)
        tReq).deactivation_reason = "" ∧
    (auto_reactivate
        (toggle_user_status parseIso u reasons custom_reason reason "1d" T)
        tReq).deactivation_reasons = [] ∧
    (auto_reactivate
        (toggle_user_status parseIso u reasons custom_reason reason "1d" T)
        tReq).reactivate_at = none := by
  have htog : toggle_user_status parseIso u reasons custom_reason reason "1d" T
      = { u with
          status := "inactive",
          deactivation_reason := combinedReason reasons custom_reason reason,
          deactivation_reasons := reasons ++
            (if pyStrip custom_reason ≠ "" then [pyStrip custom_reason] else []),
          deactivation_duration := "1d",
          deactivated_at := some T,
          reactivate_at := some (T + 86400) } := by
    unfold toggle_user_status
    rw [if_pos hactive]
    rfl
  rw [htog]
  unfold auto_reactivate
  rw [if_pos rfl]
  dsimp only
  rw [if_pos hlate]
  exact ⟨rfl, rfl, rfl, rfl, rfl, rfl⟩

/-- Witness for C7 at T = 1000, request time T + 86400. -/
theorem timed_deactivation_reactivation_witness :
    (toggle_user_status (fun _ => none)
        { id := "u9", status := "active", deactivation_reason := "",
          deactivation_reasons := [], deactivation_duration := "",
          deactivated_at := none, reactivate_at := none,
          reactivated_at := none }
        ["Spam"] "" "" "1d" 1000).status = "inactive" ∧
    (toggle_user_status (fun _ => none)
        { id := "u9", status := "active", deactivation_reason := "",
          deactivation_reasons := [], deactivation_duration := "",
          deactivated_at := none, reactivate_at := none,
          reactivated_at := none }
        ["Spam"] "" "" "1d" 1000).reactivate_at = some (1000 + 86400) ∧
    (auto_reactivate
        (toggle_user_status (fun _ => none)
          { id := "u9", status := "active", deactivation_reason := "",
            deactivation_reasons := [], deactivation_duration := "",
            deactivated_at := none, reactivate_at := none,
            reactivated_at := none }
          ["Spam"] "" "" "1d" 1000) 87400).status = "active" ∧
    (auto_reactivate
        (toggle_user_status (fun _ => none)
          { id := "u9", status := "active", deactivation_reason := "",
            deactivation_reasons := [], deactivation_duration := "",
            deactivated_at := none, reactivate_at := none,
            reactivated_at := none }
          ["Spam"] "" "" "1d" 1000) 87400).deactivation_reason = "" ∧
    (auto_reactivate
        (toggle_user_status (fun _ => none)
          { id := "u9", status := "active", deactivation_reason := "",
            deactivation_reasons := [], deactivation_duration := "",
            deactivated_at := none, reactivate_at := none,
            reactivated_at := none }
          ["Spam"] "" "" "1d" 1000) 87400).deactivation_reasons = [] ∧
    (auto_reactivate
        (toggle_user_status (fun _ => none)
          { id := "u9", status := "active", deactivation_reason := "",
            deactivation_reasons := [], deactivation_duration := "",
            deactivated_at := none, reactivate_at := none,
            reactivated_at := none }
          ["Spam"] "" "" "1d" 1000) 87400).reactivate_at = none :=
  timed_deactivation_reactivation (fun _ => none)
    { id := "u9", status := "active", deactivation_reason := "",
      deactivation_reasons := [], deactivation_duration := "",
      deactivated_at := none, reactivate_at := none, reactivated_at := none }
    ["Spam"] "" "" 1000 87400 (by decide) (by decide)

theorem maxUsesCheck_of_positive (v : Voucher)
    (hp : ∀ m, v.max_uses = some m → 0 < m) :
    maxUsesCheck v =
      (match v.max_uses with
       | some m => decide (m ≤ v.current_uses)
       | none => false) := by
  unfold maxUsesCheck
  cases hm : v.max_uses with
  | none => rfl
  | some m =>
    have hne : m ≠ 0 := by
      have := hp m hm
      omega
    simp [hne]

theorem perUserCheck_of_positive (v : Voucher) (uid : String)
    (hp : ∀ l, v.per_user_limit = some l → 0 < l) :
    perUserCheck v uid =
      (match v.per_user_limit with
       | some l => decide (l ≤ userUsage v uid)
       | none => false) := by
  unfold perUserCheck
  cases hl : v.per_user_limit with
  | none => rfl
  | some l =>
    have hne : l ≠ 0 := by
      have := hp l hl
      omega
    simp [hne]

theorem minOrderCheck_of_positive (v : Voucher) (total : Rat)
    (hp : ∀ m, v.min_order_amount = some m → 0 < m) :
    minOrderCheck v total =
      (match v.min_order_amount with
       | some m => decide (total < m)
       | none => false) := by
  unfold minOrderCheck
  cases hm : v.min_order_amount with
  | none => rfl
  | some m =>
    have hne : m ≠ 0 := by
      have := hp m hm
      exact ne_of_gt this
    simp [hne]

theorem specRejects_eq_checks (v : Voucher) (total : Rat) (uid : String)
    (now : Int) (hp : VoucherPositive v) :
    specRejects v total uid now =
      (expiredCheck v now || maxUsesCheck v || perUserCheck v uid ||
        minOrderCheck v total) := by
  obtain ⟨h1, h2, h3⟩ := hp
  have hexp : (match v.expiration_date with
      | some e => decide (e ≤ now)
      | none => false) = expiredCheck v now := rfl
  rw [specRejects, hexp, maxUsesCheck_of_positive v h1,
    perUserCheck_of_positive v uid h2, minOrderCheck_of_positive v total h3]

/-- C5: with the store invariant that optional constraint fields are
positive when present (enforced by voucher create/update), validation
rejects with 400 exactly when the code resolves to no active voucher, or
the resolved voucher is expired, at max_uses, at the requesting user's
per_user_limit, or the total is below min_order_amount; otherwise it
succeeds with discount total times value/100 for a percentage voucher and
flat value for a fixed one. -/
theorem validate_voucher_spec (store : List Voucher) (code : String)
    (total : Rat) (uid : String) (now : Int)
    (hpos : ∀ v ∈ store, VoucherPositive v) :
    (findVoucher store code = none →
      validate_voucher store code total uid now =
        .error ⟨400, "Invalid or inactive voucher code"⟩) ∧
    ∀ v, findVoucher store code = some v →
      ((∃ d, validate_voucher store code total uid now = .error ⟨400, d⟩) ↔
        specRejects v total uid now = true) ∧
      (specRejects v total uid now = false →
        validate_voucher store code total uid now =
          .ok { discount_value :=
                  if v.discount_type == "percentage" then
                    total * (v.value / 100)
                  else v.value,
                discount_type := v.discount_type,
                voucher_id := v.id }) := by
  constructor
  · intro h
    unfold validate_voucher
    rw [h]
  · intro v hv
    have hp : VoucherPositive v :=
      hpos v (List.mem_of_find?_eq_some hv)
    have hspec := specRejects_eq_checks v total uid now hp
    have hok : specRejects v total uid now = false →
        validate_voucher store code total uid now =
          .ok { discount_value :=
                  if v.discount_type == "percentage" then
                    total * (v.value / 100)
                  else v.value,
                discount_type := v.discount_type,
                voucher_id := v.id } := by
      intro hfalse
      rw [hspec] at hfalse
      simp only [Bool.or_eq_false_iff] at hfalse
      obtain ⟨⟨⟨he, hm⟩, hu⟩, hmo⟩ := hfalse
      unfold validate_voucher
      rw [hv]
      dsimp only
      rw [if_neg (by rw [he]; simp), if_neg (by rw [hm]; simp),
        if_neg (by rw [hu]; simp), if_neg (by rw [hmo]; simp)]
    constructor
    · constructor
      · rintro ⟨d, hd⟩
        by_contra hne
        have hfalse : specRejects v total uid now = false := by
          cases h : specRejects v total uid now with
          | false => rfl
          | true => exact absurd h hne
        rw [hok hfalse] at hd
        exact absurd hd (by simp)
      · intro htrue
        rw [hspec] at htrue
        unfold validate_voucher
        rw [hv]
        dsimp only
        by_cases he : expiredCheck v now = true
        · rw [if_pos he]
          exact ⟨_, rfl⟩
        · rw [if_neg he]
          by_cases hm : maxUsesCheck v = true
          · rw [if_pos hm]
            exact ⟨_, rfl⟩
          · rw [if_neg hm]
            by_cases hu : perUserCheck v uid = true
            · rw [if_pos hu]
              exact ⟨_, rfl⟩
            · rw [if_neg hu]
              by_cases hmo : minOrderCheck v total = true
              · rw [if_pos hmo]
                exact ⟨_, rfl⟩
              · exfalso
                rw [Bool.not_eq_true] at he hm hu hmo
                rw [he, hm, hu, hmo] at htrue
                simp at htrue
    · exact hok

/-- Active percentage voucher (20 percent) for the C5 witness. -/
def demoVoucherPct : Voucher :=
  { id := "v1", seller_id := "s1", code := "SAVE20",
    discount_type := "percentage", value := 20, expiration_date := none,
    max_uses := none, current_uses := 0, per_user_limit := none,
    min_order_amount := none, active := true, used_by := [] }

/-- Active fixed voucher (value 150) for the C5 witness. -/
def demoVoucherFix : Voucher :=
  { id := "v2", seller_id := "s1", code := "FLAT150",
    discount_type := "fixed", value := 150, expiration_date := none,
    max_uses := none, current_uses := 0, per_user_limit := none,
    min_order_amount := none, active := true, used_by := [] }

/-- Voucher store for the C5 witness. -/
def demoVStore : List Voucher := [demoVoucherPct, demoVoucherFix]

/-- Witness for C5: value 20 percent on total 1000 discounts 200, and a
fixed 150 voucher discounts 150 regardless of total. -/
theorem validate_voucher_spec_witness :
    validate_voucher demoVStore "save20" 1000 "u1" 0 =
      .ok { discount_value := 200, discount_type := "percentage",
            voucher_id := "v1" } ∧
    validate_voucher demoVStore "flat150" 10 "u1" 0 =
      .ok { discount_value := 150, discount_type := "fixed",
            voucher_id := "v2" } := by
  constructor
  · have h := ((validate_voucher_spec demoVStore "save20" 1000 "u1" 0
      (by decide)).2 demoVoucherPct (by decide)).2 (by decide)
    rw [h]
    norm_num [demoVoucherPct]
  · have h := ((validate_voucher_spec demoVStore "flat150" 10 "u1" 0
      (by decide)).2 demoVoucherFix (by decide)).2 (by decide)
    rw [h]
    norm_num [demoVoucherFix]
    decide

/-- C8: the validate endpoint is read-only on the voucher store — the
handler performs a single `find_one` and no write, so the store after the
call equals the store before it (in particular no voucher's current_uses
or used_by changes). -/
theorem validate_voucher_readonly (store : List Voucher) (code : String)
    (total : Rat) (uid : String) (now : Int) :
    (validate_voucher_endpoint store code total uid now).2 = store := rfl

end DaingGrader
